import Mathlib

/-!
Verification of the checkpointed pipeline engine of the mediaichemy
repository: the content entity, its ordered-stage state machine
(`mediaichemy/content/checkpoint.py`, `mediaichemy/content/content.py`),
and the stage functions of `mediaichemy/content/short_video.py` and
`mediaichemy/content/creator.py`.

The filesystem is modelled as an association list keyed by
(directory, file name) pairs: the Python code addresses every file as
`content.dir + "/" + name`, and each content entity owns one directory.
-/

namespace Mediaichemy

/-- Artifact descriptors as they appear in the `STATES` tables
(`ShortVideo.__init__` in short_video.py and `MusicVideo.__init__` in
music_video.py): `None`, a `JPEGFile`/`MP4File` at a path, a per-language
dict of `MP3File`/`MP4File` paths, or a plain string. -/
inductive Artifact where
  | null : Artifact
  | jpeg : String → Artifact
  | mp4 : String → Artifact
  | mp3Map : List (String × String) → Artifact
  | mp4Map : List (String × String) → Artifact
  | str : String → Artifact
deriving DecidableEq, Repr

/-- A content entity: its owned directory `dir`, its lifecycle `state`
(the name of the last stage reached), and the `STATES` table mapping a
stage name to its ordinal and artifact descriptor
(`Content` in content.py plus the subclass-supplied `STATES`). -/
structure Content where
  dir : String
  state : String
  STATES : List (String × Nat × Artifact)
deriving DecidableEq, Repr

/-- Lookup of a stage name in a `STATES` table
(the dict indexing `content.STATES[state]` in checkpoint.py). -/
def lookupState (tbl : List (String × Nat × Artifact)) (s : String) :
    Option (Nat × Artifact) :=
  match tbl with
  | [] => none
  | (k, v) :: rest => if k = s then some v else lookupState rest s

/-- The filesystem: contents of each (directory, file name) pair. -/
abbrev FS := List ((String × String) × String)

/-- Write (create or overwrite) a file: the new entry shadows any older
entry for the same (directory, name) key, and reads return the most
recent entry, so this models `open(path, "w")` overwrite semantics. -/
def fsWrite (fs : FS) (dir name contents : String) : FS :=
  ((dir, name), contents) :: fs

/-- Read a file, `none` when it does not exist. -/
def fsRead (fs : FS) (dir name : String) : Option String :=
  match fs with
  | [] => none
  | (k, v) :: rest => if k = (dir, name) then some v else fsRead rest dir name

/-- Errors of the checkpoint machinery: a `KeyError` on a stage name
missing from the `STATES` table, or an exception raised by the wrapped
work and propagated. -/
inductive CkError (ε : Type) where
  | keyError : String → CkError ε
  | workError : ε → CkError ε
deriving DecidableEq, Repr

/-- Result of one guarded invocation: the returned value or propagated
exception, the content object afterwards, the filesystem afterwards, and
how many times the wrapped work was invoked. -/
structure CheckpointResult (ε : Type) where
  result : Except (CkError ε) Artifact
  content : Content
  fs : FS
  workCalls : Nat

/-- Embedding of `_save_state` (checkpoint.py lines 67-80): write
`content.state` to the file `.state` in `content.dir`.  The Python code
wraps the write in try/except and only logs on failure, so a failed
write (modelled by `writeOk = false`) leaves the filesystem unchanged
and raises nothing. -/
def saveState (writeOk : Bool) (c : Content) (fs : FS) : FS :=
  if writeOk then fsWrite fs c.dir ".state" c.state else fs

/-- Embedding of `_handle_checkpoint` (checkpoint.py lines 35-64): look
up the ordinals of `content.state` and of the target `state` in
`content.STATES` (a missing key raises `KeyError`); when the current
ordinal is ≥ the target's, skip the work and return the artifact
recorded for the target stage; otherwise run the work (whose outcome is
the `Except` value `work`), propagate its exception unchanged, and on
success set `content.state` to the target stage, save it with
`_save_state`, and return the work's result. -/
def handleCheckpoint (writeOk : Bool) (c : Content) (state : String)
    (work : Except ε Artifact) (fs : FS) : CheckpointResult ε :=
  match lookupState c.STATES c.state with
  | none => ⟨.error (.keyError c.state), c, fs, 0⟩
  | some (curOrd, _) =>
    match lookupState c.STATES state with
    | none => ⟨.error (.keyError state), c, fs, 0⟩
    | some (tgtOrd, tgtArt) =>
      if tgtOrd ≤ curOrd then
        ⟨.ok tgtArt, c, fs, 0⟩
      else
        match work with
        | .error e => ⟨.error (.workError e), c, fs, 1⟩
        | .ok r =>
          let c' : Content := { c with state := state }
          ⟨.ok r, c', saveState writeOk c' fs, 1⟩

/-- Python `str.strip()`: drop leading and trailing whitespace, modelled
over the string's character list. -/
def pyStrip (s : String) : String :=
  ⟨((s.data.dropWhile Char.isWhitespace).reverse.dropWhile
      Char.isWhitespace).reverse⟩

/-- Embedding of `Content.load_state` (content.py lines 85-99): read the
`.state` file from the entity's directory, strip surrounding whitespace,
and default to "initialized" when the file does not exist. -/
def loadState (c : Content) (fs : FS) : Content :=
  match fsRead fs c.dir ".state" with
  | some s => { c with state := pyStrip s }
  | none => { c with state := "initialized" }

/-- The `STATES` table installed by `ShortVideo.__init__`
(short_video.py lines 60-70), parameterised by the entity directory and
its language list. -/
def shortVideoStates (dir : String) (languages : List String) :
    List (String × Nat × Artifact) :=
  [("initialized", (0, .null)),
   ("image_created", (1, .jpeg (dir ++ "/image.jpg"))),
   ("video_created", (2, .mp4 (dir ++ "/video.mp4"))),
   ("speech_created",
    (3, .mp3Map (languages.map (fun l => (l, dir ++ "/" ++ l ++ "_speech.mp3"))))),
   ("video_edited",
    (4, .mp4Map (languages.map (fun l => (l, dir ++ "/" ++ l ++ "_video.mp4"))))),
   ("subtitles_added", (5, .str "Content created"))]

/-- The stage names of the fixed stage table (the keys of the `STATES`
tables, spec ordinals 0-5). -/
def stageNames : List String :=
  ["initialized", "image_created", "video_created", "speech_created",
   "video_edited", "subtitles_added"]

/-- Embedding of the body of `ShortVideoCreator.run_speech_creation`
(short_video.py lines 130-138): loop over the languages in order,
synthesising speech for each; any failure aborts the loop and
propagates, otherwise the per-language results are collected. -/
def speechWork (languages : List String) (synth : String → Except ε String) :
    Except ε (List (String × String)) :=
  match languages with
  | [] => .ok []
  | l :: rest =>
    match synth l with
    | .error e => .error e
    | .ok s =>
      match speechWork rest synth with
      | .error e => .error e
      | .ok xs => .ok ((l, s) :: xs)

/-- Embedding of the dict branch of `Content.__init__` (content.py lines
39-44) as run for a `ShortVideo`: a fresh directory is allocated (the
random suffix is modelled by the given fresh name), `self.state` is set
to "initialized", and `Content.save` writes the idea payload to
`idea.json` in the directory; `ShortVideo.__init__` then installs the
`STATES` table.  No `.state` ledger file is written on this path. -/
def shortVideoInitFromDict (freshDir idea : String)
    (languages : List String) (fs : FS) : Content × FS :=
  (⟨freshDir, "initialized", shortVideoStates freshDir languages⟩,
   fsWrite fs freshDir "idea.json" idea)

/-- Test that `needle` begins `hay`, over character lists. -/
def charsBegin : List Char → List Char → Bool
  | [], _ => true
  | _ :: _, [] => false
  | a :: as, b :: bs => a == b && charsBegin as bs

/-- Test that `needle` occurs somewhere in `hay`, over character lists. -/
def charsContain (needle hay : List Char) : Bool :=
  match hay with
  | [] => needle.isEmpty
  | _ :: rest => charsBegin needle hay || charsContain needle rest

/-- Python's substring containment test `needle in hay`. -/
def strContains (hay needle : String) : Bool :=
  charsContain needle.data hay.data

/-- The keep test of `Content.purge` (content.py lines 108-113): a file
survives when `ready_string` occurs in its name or the name is one of
`idea.json`, `image.jpg`, `video.mp4`. -/
def purgeKeep (readyString fileName : String) : Bool :=
  strContains fileName readyString ||
    (fileName == "idea.json" || fileName == "image.jpg" ||
      fileName == "video.mp4")

/-- Embedding of `Content.purge` (content.py lines 101-116): every file
in the entity's directory whose name fails the keep test is deleted;
files outside the directory are untouched; the content object itself
(and in particular its `state`) is not modified. -/
def purge (c : Content) (readyString : String) (fs : FS) : FS :=
  fs.filter (fun e => decide (e.1.1 ≠ c.dir) || purgeKeep readyString e.1.2)

/-- The stages whose runner methods of `ShortVideoCreator`, as
dispatched from `ShortVideoCreator.create` (short_video.py lines
98-105), carry a `@checkpoint` decorator: `run_image_creation`
("image_created", line 108), `run_video_creation` ("video_created",
line 116), `run_speech_creation` ("speech_created", line 129) and
`run_subtitling` ("subtitles_added", line 158).  On the
`run_video_editing` override the `@checkpoint('video_edited')` line
(line 141) is commented out. -/
def shortVideoCreatorCheckpointedStages : List String :=
  ["image_created", "video_created", "speech_created", "subtitles_added"]

/-- Embedding of `ShortVideoCreator.run_video_editing` (short_video.py
lines 140-155), the override that `ShortVideoCreator.create` dispatches
to: with its checkpoint decorator commented out, the body runs unguarded
whatever the entity's stage; there is no skip, no state update and no
ledger write. -/
def shortVideoRunVideoEditing (c : Content) (work : Except ε Artifact)
    (fs : FS) : CheckpointResult ε :=
  ⟨work.mapError CkError.workError, c, fs, 1⟩

/-- What a Python caller receives from a call: an actual value (possibly
an exception), or a coroutine object that was never awaited. -/
inductive PyValue (ε : Type) where
  | value : Except (CkError ε) Artifact → PyValue ε
  | coroutine : PyValue ε
deriving Repr

/-- Embedding of calling the wrapper returned by the `checkpoint`
decorator (checkpoint.py lines 20-30).  For a coroutine `func` the
caller awaits `async_handler`, which runs `_handle_checkpoint`.  For a
plain synchronous `func`, `sync_handler` returns the coroutine object
produced by calling the async `_handle_checkpoint` without awaiting it:
none of its body runs, so the work is not invoked, the state and the
filesystem are unchanged, and the caller receives the coroutine object
instead of the work's result.  The components returned are the received
value, the content object, the filesystem, and the number of times the
wrapped work ran. -/
def callCheckpointed (isCoroutineFunc writeOk : Bool) (c : Content)
    (state : String) (work : Except ε Artifact) (fs : FS) :
    PyValue ε × Content × FS × Nat :=
  if isCoroutineFunc then
    let r := handleCheckpoint writeOk c state work fs
    (.value r.result, r.content, r.fs, r.workCalls)
  else
    (.coroutine, c, fs, 0)

/-- One guarded stage invocation: the target stage name, the outcome the
wrapped work would produce, and whether the ledger write succeeds. -/
structure Invocation (ε : Type) where
  stage : String
  work : Except ε Artifact
  writeOk : Bool

/-- Run a sequence of checkpoint-guard invocations against an entity,
threading the content object and the filesystem. -/
def runGuards (c : Content) (fs : FS) : List (Invocation ε) → Content × FS
  | [] => (c, fs)
  | i :: rest =>
    let r := handleCheckpoint i.writeOk c i.stage i.work fs
    runGuards r.content r.fs rest

/-- The ordinal of the entity's current stage, when its stage table has
an entry for it. -/
def ordOf (c : Content) : Option Nat :=
  (lookupState c.STATES c.state).map Prod.fst

end Mediaichemy

namespace Mediaichemy

/-- Claim C1: for every entity and every stage name present in its stage
table, if the entity's current stage ordinal is ≥ the target stage's
ordinal, the checkpoint guard does not execute the wrapped work at all
(zero work invocations, content and filesystem untouched) and returns
the artifact descriptor recorded for the target stage. -/
theorem checkpoint_skip_returns_recorded_artifact (writeOk : Bool)
    (c : Content) (state : String) (work : Except ε Artifact) (fs : FS)
    (curOrd tgtOrd : Nat) (curArt tgtArt : Artifact)
    (hcur : lookupState c.STATES c.state = some (curOrd, curArt))
    (htgt : lookupState c.STATES state = some (tgtOrd, tgtArt))
    (hord : tgtOrd ≤ curOrd) :
    handleCheckpoint writeOk c state work fs = ⟨.ok tgtArt, c, fs, 0⟩ := by
  unfold handleCheckpoint
  rw [hcur, htgt]
  simp [hord]

/-- Witness for C1: a concrete short-video entity at "video_created"
skips the "image_created" guard and returns the recorded JPEG artifact. -/
theorem checkpoint_skip_returns_recorded_artifact_witness :
    handleCheckpoint true
      ⟨"d", "video_created", shortVideoStates "d" ["en"]⟩
      "image_created" (Except.ok (Artifact.str "fresh") : Except String Artifact) [] =
    ⟨.ok (.jpeg "d/image.jpg"),
     ⟨"d", "video_created", shortVideoStates "d" ["en"]⟩, [], 0⟩ :=
  checkpoint_skip_returns_recorded_artifact true
    ⟨"d", "video_created", shortVideoStates "d" ["en"]⟩
    "image_created" (Except.ok (Artifact.str "fresh")) []
    2 1 (.mp4 "d/video.mp4") (.jpeg "d/image.jpg")
    (by decide) (by decide) (by decide)

/-- Reading a file just written returns the written contents. -/
theorem fsRead_fsWrite_self (fs : FS) (dir name contents : String) :
    fsRead (fsWrite fs dir name contents) dir name = some contents := by
  simp [fsRead, fsWrite]

/-- Claim C2: for every entity whose current stage ordinal is strictly
below the target's, the guard executes the wrapped work exactly once,
and afterwards the entity's state equals the target stage, the `.state`
file in the entity's directory contains the target stage's name, and the
work's result is returned. -/
theorem checkpoint_first_run_commits (c : Content) (state : String)
    (a : Artifact) (fs : FS) (curOrd tgtOrd : Nat) (curArt tgtArt : Artifact)
    (hcur : lookupState c.STATES c.state = some (curOrd, curArt))
    (htgt : lookupState c.STATES state = some (tgtOrd, tgtArt))
    (hord : curOrd < tgtOrd) :
    (handleCheckpoint true c state (.ok a : Except ε Artifact) fs).workCalls = 1 ∧
    (handleCheckpoint true c state (.ok a : Except ε Artifact) fs).content.state = state ∧
    fsRead (handleCheckpoint true c state (.ok a : Except ε Artifact) fs).fs
      c.dir ".state" = some state ∧
    (handleCheckpoint true c state (.ok a : Except ε Artifact) fs).result = .ok a := by
  unfold handleCheckpoint
  rw [hcur, htgt]
  simp [Nat.not_le_of_lt hord, saveState, fsRead_fsWrite_self]

/-- Witness for C2: a concrete entity at "initialized" runs the
"image_created" work once, advances, and persists the new stage. -/
theorem checkpoint_first_run_commits_witness :
    (handleCheckpoint true ⟨"d", "initialized", shortVideoStates "d" ["en"]⟩
      "image_created" (Except.ok (Artifact.jpeg "d/image.jpg") : Except String Artifact)
      []).workCalls = 1 ∧
    (handleCheckpoint true ⟨"d", "initialized", shortVideoStates "d" ["en"]⟩
      "image_created" (Except.ok (Artifact.jpeg "d/image.jpg") : Except String Artifact)
      []).content.state = "image_created" ∧
    fsRead (handleCheckpoint true ⟨"d", "initialized", shortVideoStates "d" ["en"]⟩
      "image_created" (Except.ok (Artifact.jpeg "d/image.jpg") : Except String Artifact)
      []).fs "d" ".state" = some "image_created" ∧
    (handleCheckpoint true ⟨"d", "initialized", shortVideoStates "d" ["en"]⟩
      "image_created" (Except.ok (Artifact.jpeg "d/image.jpg") : Except String Artifact)
      []).result = .ok (Artifact.jpeg "d/image.jpg") :=
  checkpoint_first_run_commits ⟨"d", "initialized", shortVideoStates "d" ["en"]⟩
    "image_created" (Artifact.jpeg "d/image.jpg") []
    0 1 Artifact.null (Artifact.jpeg "d/image.jpg")
    (by decide) (by decide) (by decide)

/-- Claim C3: when the wrapped work raises, the guard propagates the
exception unchanged and leaves the entity's state and the filesystem
untouched; in particular for the multi-language speech stage of a
short-video entity at "video_created", a failure of the synthesiser for
"pt" leaves the state at "video_created" with no ledger write. -/
theorem checkpoint_failure_leaves_state (writeOk : Bool) {ε : Type} (e : ε) :
    (∀ (c : Content) (state : String) (fs : FS)
      (curOrd tgtOrd : Nat) (curArt tgtArt : Artifact),
      lookupState c.STATES c.state = some (curOrd, curArt) →
      lookupState c.STATES state = some (tgtOrd, tgtArt) →
      curOrd < tgtOrd →
      handleCheckpoint writeOk c state (.error e : Except ε Artifact) fs =
        ⟨.error (.workError e), c, fs, 1⟩) ∧
    (∀ (dir : String) (fs : FS) (synth : String → Except ε String),
      synth "pt" = .error e →
      (handleCheckpoint writeOk
        ⟨dir, "video_created", shortVideoStates dir ["en", "pt"]⟩
        "speech_created"
        ((speechWork ["en", "pt"] synth).map Artifact.mp3Map) fs).content =
        ⟨dir, "video_created", shortVideoStates dir ["en", "pt"]⟩ ∧
      (handleCheckpoint writeOk
        ⟨dir, "video_created", shortVideoStates dir ["en", "pt"]⟩
        "speech_created"
        ((speechWork ["en", "pt"] synth).map Artifact.mp3Map) fs).fs = fs) := by
  constructor
  · intro c state fs curOrd tgtOrd curArt tgtArt hcur htgt hord
    unfold handleCheckpoint
    rw [hcur, htgt]
    simp [Nat.not_le_of_lt hord]
  · intro dir fs synth hpt
    have hwork : ∃ err, speechWork ["en", "pt"] synth = .error err := by
      cases hen : synth "en" with
      | error e1 => exact ⟨e1, by simp [speechWork, hen]⟩
      | ok s => exact ⟨e, by simp [speechWork, hen, hpt]⟩
    obtain ⟨err, hw⟩ := hwork
    rw [hw]
    constructor <;>
      simp [handleCheckpoint, lookupState, shortVideoStates, Except.map]

/-- Witness for C3: concrete instantiations of both conjuncts. -/
theorem checkpoint_failure_leaves_state_witness :
    (handleCheckpoint true ⟨"d", "initialized", shortVideoStates "d" ["en"]⟩
      "image_created" (.error "boom" : Except String Artifact) [] =
      ⟨.error (.workError "boom"),
       ⟨"d", "initialized", shortVideoStates "d" ["en"]⟩, [], 1⟩) ∧
    (handleCheckpoint true
      ⟨"d", "video_created", shortVideoStates "d" ["en", "pt"]⟩
      "speech_created"
      ((speechWork ["en", "pt"]
          (fun l => if l = "en" then .ok "s" else .error "boom")).map
        Artifact.mp3Map) []).content =
      ⟨"d", "video_created", shortVideoStates "d" ["en", "pt"]⟩ :=
  ⟨(checkpoint_failure_leaves_state true "boom").1
      ⟨"d", "initialized", shortVideoStates "d" ["en"]⟩
      "image_created" [] 0 1 Artifact.null (Artifact.jpeg "d/image.jpg")
      (by decide) (by decide) (by decide),
   ((checkpoint_failure_leaves_state true "boom").2 "d" []
      (fun l => if l = "en" then .ok "s" else .error "boom") rfl).1⟩

/-- A single guard invocation never lowers the entity's stage ordinal,
and the stage table is never modified. -/
theorem handleCheckpoint_ord_mono (writeOk : Bool) (c : Content)
    (state : String) (work : Except ε Artifact) (fs : FS) (o : Nat)
    (h : ordOf c = some o) :
    ∃ o', ordOf (handleCheckpoint writeOk c state work fs).content = some o' ∧
      o ≤ o' := by
  obtain ⟨⟨o1, a1⟩, hcur, rfl⟩ :
      ∃ p, lookupState c.STATES c.state = some p ∧ p.1 = o := by
    unfold ordOf at h
    cases hl : lookupState c.STATES c.state with
    | none => rw [hl] at h; simp at h
    | some p => rw [hl] at h; simp at h; exact ⟨p, rfl, h⟩
  unfold handleCheckpoint
  rw [hcur]
  cases htgt : lookupState c.STATES state with
  | none => exact ⟨o1, by simp [ordOf, hcur], le_refl o1⟩
  | some p =>
    obtain ⟨o2, a2⟩ := p
    by_cases hord : o2 ≤ o1
    · exact ⟨o1, by simp [hord, ordOf, hcur], le_refl o1⟩
    · cases work with
      | error e => exact ⟨o1, by simp [hord, ordOf, hcur], le_refl o1⟩
      | ok r =>
        refine ⟨o2, by simp [hord, ordOf, htgt], Nat.le_of_lt ?_⟩
        exact Nat.lt_of_not_le hord

/-- Across any sequence of guard invocations the ordinal never
decreases. -/
theorem runGuards_ord_mono (invs : List (Invocation ε)) (c : Content)
    (fs : FS) (o : Nat) (h : ordOf c = some o) :
    ∃ o', ordOf (runGuards c fs invs).1 = some o' ∧ o ≤ o' := by
  induction invs generalizing c fs o with
  | nil => exact ⟨o, h, le_refl o⟩
  | cons i rest ih =>
    obtain ⟨o1, h1, hle1⟩ :=
      handleCheckpoint_ord_mono i.writeOk c i.stage i.work fs o h
    obtain ⟨o2, h2, hle2⟩ :=
      ih (handleCheckpoint i.writeOk c i.stage i.work fs).content
        (handleCheckpoint i.writeOk c i.stage i.work fs).fs o1 h1
    exact ⟨o2, h2, le_trans hle1 hle2⟩

/-- Claim C4: over every sequence of checkpoint-guard invocations the
entity's current stage ordinal never decreases. -/
theorem checkpoint_monotonic (invs : List (Invocation ε)) (c : Content)
    (fs : FS) (o o' : Nat) (h : ordOf c = some o)
    (h' : ordOf (runGuards c fs invs).1 = some o') :
    o ≤ o' := by
  obtain ⟨o2, h2, hle⟩ := runGuards_ord_mono invs c fs o h
  rw [h'] at h2
  cases h2
  exact hle

/-- Witness for C4: a concrete three-invocation run (one commit, one
failure, one skip) starting at "initialized". -/
theorem checkpoint_monotonic_witness :
    ordOf ⟨"d", "initialized", shortVideoStates "d" ["en"]⟩ = some 0 ∧
    ordOf (runGuards ⟨"d", "initialized", shortVideoStates "d" ["en"]⟩ []
      [⟨"image_created", .ok (Artifact.jpeg "d/image.jpg"), true⟩,
       ⟨"video_created", (.error "boom" : Except String Artifact), true⟩,
       ⟨"image_created", .ok (Artifact.jpeg "d/image.jpg"), true⟩]).1 = some 1 ∧
    (0 : Nat) ≤ 1 :=
  ⟨by decide, by decide,
   checkpoint_monotonic
     [⟨"image_created", .ok (Artifact.jpeg "d/image.jpg"), true⟩,
      ⟨"video_created", (.error "boom" : Except String Artifact), true⟩,
      ⟨"image_created", .ok (Artifact.jpeg "d/image.jpg"), true⟩]
     ⟨"d", "initialized", shortVideoStates "d" ["en"]⟩ [] 0 1
     (by decide) (by decide)⟩

/-- A write to one file leaves reads of any other (directory, name) key
unchanged. -/
theorem fsRead_fsWrite_ne (fs : FS) (d n v d' n' : String)
    (h : (d', n') ≠ (d, n)) :
    fsRead (fsWrite fs d n v) d' n' = fsRead fs d' n' := by
  simp [fsWrite, fsRead, Ne.symm h]

/-- Claim C5: for every stage name of the fixed stage table, durably
saving the entity's state with `_save_state` and reloading it with
`load_state` reproduces exactly the state that was written.  The model
passes the written filesystem to the reload, which is the only medium
shared across process invocations. -/
theorem save_load_roundtrip (c : Content) (fs : FS)
    (h : c.state ∈ stageNames) :
    (loadState c (saveState true c fs)).state = c.state := by
  unfold loadState saveState
  rw [if_pos rfl, fsRead_fsWrite_self]
  have htrim : pyStrip c.state = c.state := by
    simp [stageNames] at h
    rcases h with h | h | h | h | h | h <;> rw [h] <;> decide
  simp [htrim]

/-- Witness for C5: the roundtrip at "video_created". -/
theorem save_load_roundtrip_witness :
    (loadState ⟨"d", "video_created", shortVideoStates "d" ["en"]⟩
      (saveState true ⟨"d", "video_created", shortVideoStates "d" ["en"]⟩
        [])).state = "video_created" :=
  save_load_roundtrip ⟨"d", "video_created", shortVideoStates "d" ["en"]⟩
    [] (by decide)

/-- Claim C10: when the ledger write fails after the wrapped work
succeeds (`_save_state` catches the exception and only logs it), the
guard still returns the work's artifact as a success, the in-memory
state is advanced to the target stage, the filesystem is unchanged, and
a subsequent reload from the directory observes whatever stage was
recorded before — which can be lower than the stage the caller was told
was committed. -/
theorem checkpoint_write_failure_swallowed (ε : Type) (c : Content)
    (state : String)
    (a : Artifact) (fs : FS) (curOrd tgtOrd : Nat) (curArt tgtArt : Artifact)
    (hcur : lookupState c.STATES c.state = some (curOrd, curArt))
    (htgt : lookupState c.STATES state = some (tgtOrd, tgtArt))
    (hord : curOrd < tgtOrd) :
    handleCheckpoint false c state (.ok a : Except ε Artifact) fs =
      ⟨.ok a, { c with state := state }, fs, 1⟩ ∧
    ∀ prior, fsRead fs c.dir ".state" = some prior →
      (loadState { c with state := state } fs).state = pyStrip prior := by
  constructor
  · unfold handleCheckpoint
    rw [hcur, htgt]
    simp [Nat.not_le_of_lt hord, saveState]
  · intro prior hprior
    unfold loadState
    simp only
    rw [hprior]

/-- Witness for C10: the entity has "initialized" on disk, the
"image_created" commit's write fails, the guard reports success and the
in-memory state says "image_created", yet a reload sees "initialized". -/
theorem checkpoint_write_failure_swallowed_witness :
    (handleCheckpoint false ⟨"d", "initialized", shortVideoStates "d" ["en"]⟩
      "image_created" (.ok (Artifact.jpeg "d/image.jpg") : Except String Artifact)
      [(("d", ".state"), "initialized")] =
      ⟨.ok (Artifact.jpeg "d/image.jpg"),
       ⟨"d", "image_created", shortVideoStates "d" ["en"]⟩,
       [(("d", ".state"), "initialized")], 1⟩) ∧
    (loadState ⟨"d", "image_created", shortVideoStates "d" ["en"]⟩
      [(("d", ".state"), "initialized")]).state = pyStrip "initialized" :=
  ⟨(checkpoint_write_failure_swallowed String
      ⟨"d", "initialized", shortVideoStates "d" ["en"]⟩ "image_created"
      (Artifact.jpeg "d/image.jpg") [(("d", ".state"), "initialized")]
      0 1 Artifact.null (Artifact.jpeg "d/image.jpg")
      (by decide) (by decide) (by decide)).1,
   (checkpoint_write_failure_swallowed String
      ⟨"d", "initialized", shortVideoStates "d" ["en"]⟩ "image_created"
      (Artifact.jpeg "d/image.jpg") [(("d", ".state"), "initialized")]
      0 1 Artifact.null (Artifact.jpeg "d/image.jpg")
      (by decide) (by decide) (by decide)).2 "initialized" rfl⟩

/-- When no `.state` record exists, a reload defaults to
"initialized". -/
theorem loadState_of_none (c : Content) (fs : FS)
    (h : fsRead fs c.dir ".state" = none) :
    (loadState c fs).state = "initialized" := by
  unfold loadState
  rw [h]

/-- Counterexample to claim C7: for a concrete entity created from a raw
idea dict, the directory holds the idea payload and the state is
"initialized", but no `.state` ledger record was persisted —
`Content.__init__` only calls `Content.save`, which writes `idea.json`. -/
theorem create_from_idea_no_ledger_counterexample :
    (shortVideoInitFromDict "content/short_video/ab12" "ideapayload"
      ["en"] []).1.state = "initialized" ∧
    fsRead (shortVideoInitFromDict "content/short_video/ab12" "ideapayload"
      ["en"] []).2 "content/short_video/ab12" "idea.json" = some "ideapayload" ∧
    fsRead (shortVideoInitFromDict "content/short_video/ab12" "ideapayload"
      ["en"] []).2 "content/short_video/ab12" ".state" = none := by
  decide

/-- Claim C7 as amended: creating an entity from a raw idea dict
allocates a fresh directory, writes the idea payload to `idea.json`
there, and sets the state to "initialized", all without external calls;
it does not write a `.state` ledger record, so a reload of the fresh
directory only reproduces "initialized" through the ledger-absent
default of `load_state`. -/
theorem create_from_idea (freshDir idea : String) (languages : List String)
    (fs : FS) (hfresh : fsRead fs freshDir ".state" = none) :
    (shortVideoInitFromDict freshDir idea languages fs).1.dir = freshDir ∧
    (shortVideoInitFromDict freshDir idea languages fs).1.state =
      "initialized" ∧
    fsRead (shortVideoInitFromDict freshDir idea languages fs).2 freshDir
      "idea.json" = some idea ∧
    fsRead (shortVideoInitFromDict freshDir idea languages fs).2 freshDir
      ".state" = none ∧
    (loadState (shortVideoInitFromDict freshDir idea languages fs).1
      (shortVideoInitFromDict freshDir idea languages fs).2).state =
      "initialized" := by
  have hne : (freshDir, ".state") ≠ (freshDir, "idea.json") := by
    intro h
    have h2 : ".state" = "idea.json" := congrArg Prod.snd h
    exact absurd h2 (by decide)
  have hread : fsRead (shortVideoInitFromDict freshDir idea languages fs).2
      freshDir ".state" = none := by
    show fsRead (fsWrite fs freshDir "idea.json" idea) freshDir ".state" = none
    rw [fsRead_fsWrite_ne fs freshDir "idea.json" idea freshDir ".state" hne]
    exact hfresh
  refine ⟨rfl, rfl, ?_, hread, ?_⟩
  · exact fsRead_fsWrite_self fs freshDir "idea.json" idea
  · exact loadState_of_none _ _ hread

/-- Witness for C7 (amended): a concrete creation against an empty
filesystem. -/
theorem create_from_idea_witness :
    (shortVideoInitFromDict "content/short_video/xy" "p" ["en"] []).1.dir =
      "content/short_video/xy" ∧
    (shortVideoInitFromDict "content/short_video/xy" "p" ["en"] []).1.state =
      "initialized" ∧
    fsRead (shortVideoInitFromDict "content/short_video/xy" "p" ["en"] []).2
      "content/short_video/xy" "idea.json" = some "p" ∧
    fsRead (shortVideoInitFromDict "content/short_video/xy" "p" ["en"] []).2
      "content/short_video/xy" ".state" = none ∧
    (loadState (shortVideoInitFromDict "content/short_video/xy" "p" ["en"] []).1
      (shortVideoInitFromDict "content/short_video/xy" "p" ["en"] []).2).state =
      "initialized" :=
  create_from_idea "content/short_video/xy" "p" ["en"] [] rfl

/-- Deleting the `.state` record: when the keep test rejects a name,
no file of that name survives a purge of the entity's directory. -/
theorem fsRead_purge_of_not_keep (c : Content) (rs n : String) (fs : FS)
    (h : purgeKeep rs n = false) :
    fsRead (purge c rs fs) c.dir n = none := by
  induction fs with
  | nil => rfl
  | cons e rest ih =>
    obtain ⟨k, v⟩ := e
    unfold purge at ih ⊢
    rw [List.filter_cons]
    by_cases hk : (decide (k.1 ≠ c.dir) || purgeKeep rs k.2) = true
    · rw [if_pos hk]
      have hne : k ≠ (c.dir, n) := by
        intro heq
        rw [heq] at hk
        simp [h] at hk
      simp only [fsRead, if_neg hne]
      exact ih
    · rw [if_neg hk]
      exact ih

/-- Counterexample to claim C8: purging a concrete entity at
"video_created" (with the default retain string "edited_video") deletes
its `.state` ledger record, so reloading the entity afterwards yields
"initialized", not the stage it was at. -/
theorem purge_reload_counterexample :
    (Content.mk "d" "video_created" (shortVideoStates "d" ["en"])).state =
      "video_created" ∧
    (loadState ⟨"d", "video_created", shortVideoStates "d" ["en"]⟩
      (purge ⟨"d", "video_created", shortVideoStates "d" ["en"]⟩
        "edited_video"
        [(("d", ".state"), "video_created"), (("d", "idea.json"), "i"),
         (("d", "en_speech.mp3"), "s")])).state = "initialized" ∧
    "initialized" ≠ "video_created" := by
  decide

/-- Claim C8 as amended: purge keeps exactly the files of the entity's
directory that pass the retain test (files elsewhere are untouched) and
never modifies the in-memory content object — but the `.state` ledger
record fails the default retain test, so it is deleted too, and a
reload after a purge yields "initialized" rather than the stage the
entity was at. -/
theorem purge_retains_exactly (c : Content) (rs : String) (fs : FS) :
    (∀ e, e ∈ purge c rs fs ↔
      e ∈ fs ∧ (e.1.1 ≠ c.dir ∨ purgeKeep rs e.1.2 = true)) ∧
    purgeKeep "edited_video" ".state" = false ∧
    fsRead (purge c "edited_video" fs) c.dir ".state" = none ∧
    (loadState c (purge c "edited_video" fs)).state = "initialized" := by
  have hkeep : purgeKeep "edited_video" ".state" = false := by decide
  have hread := fsRead_purge_of_not_keep c "edited_video" ".state" fs hkeep
  refine ⟨?_, hkeep, hread, ?_⟩
  · intro e
    simp [purge, List.mem_filter, Bool.or_eq_true, decide_eq_true_eq]
  · exact loadState_of_none _ _ hread

/-- Claim C6 evidence: the `run_video_editing` override that
`ShortVideoCreator.create` dispatches to is not among the checkpointed
runner methods; invoked on a concrete entity already at "video_edited"
it still runs the per-language editing work (one work call instead of
the guard's zero) and neither advances state nor writes the ledger,
whereas the checkpoint guard itself would have skipped the work. -/
theorem shortVideo_video_editing_not_guarded :
    ("video_edited" ∈ shortVideoCreatorCheckpointedStages → False) ∧
    (shortVideoRunVideoEditing
      ⟨"d", "video_edited", shortVideoStates "d" ["en"]⟩
      (.ok (Artifact.mp4Map [("en", "d/en_video.mp4")]) : Except String Artifact)
      [(("d", ".state"), "video_edited")]).workCalls = 1 ∧
    (shortVideoRunVideoEditing
      ⟨"d", "video_edited", shortVideoStates "d" ["en"]⟩
      (.ok (Artifact.mp4Map [("en", "d/en_video.mp4")]) : Except String Artifact)
      [(("d", ".state"), "video_edited")]).content.state = "video_edited" ∧
    (shortVideoRunVideoEditing
      ⟨"d", "video_edited", shortVideoStates "d" ["en"]⟩
      (.ok (Artifact.mp4Map [("en", "d/en_video.mp4")]) : Except String Artifact)
      [(("d", ".state"), "video_edited")]).fs =
      [(("d", ".state"), "video_edited")] ∧
    (handleCheckpoint true
      ⟨"d", "video_edited", shortVideoStates "d" ["en"]⟩ "video_edited"
      (.ok (Artifact.mp4Map [("en", "d/en_video.mp4")]) : Except String Artifact)
      [(("d", ".state"), "video_edited")]).workCalls = 0 := by
  refine ⟨by decide, rfl, rfl, rfl, by decide⟩

/-- Claim C9 evidence: wrapping a plain synchronous function with the
checkpoint decorator and calling it on an entity below the target stage
returns an un-awaited coroutine object — the work is never invoked, the
state is not advanced and nothing is persisted — while the same call
through the async path does run and commit. -/
theorem sync_checkpoint_returns_coroutine :
    callCheckpointed false true
      ⟨"d", "initialized", shortVideoStates "d" ["en"]⟩ "image_created"
      (.ok (Artifact.jpeg "d/image.jpg") : Except String Artifact) [] =
      (.coroutine, ⟨"d", "initialized", shortVideoStates "d" ["en"]⟩, [], 0) ∧
    (callCheckpointed true true
      ⟨"d", "initialized", shortVideoStates "d" ["en"]⟩ "image_created"
      (.ok (Artifact.jpeg "d/image.jpg") : Except String Artifact) []).2.1.state =
      "image_created" ∧
    (callCheckpointed true true
      ⟨"d", "initialized", shortVideoStates "d" ["en"]⟩ "image_created"
      (.ok (Artifact.jpeg "d/image.jpg") : Except String Artifact) []).2.2.2 = 1 := by
  refine ⟨rfl, ?_, ?_⟩ <;> decide

end Mediaichemy
